import Mathlib

/-!
# Verification of the ADK multi-agent demo scripts

This file embeds the configuration objects built by `src/Day1/Task1.py` and
`src/Day1/Task2.py` (retry options, agent descriptors, sequential / parallel /
loop pipelines) and an operational model of the orchestration semantics that
the external ADK runtime provides, as described by the repository's
specification.  The theorems at the end settle the frozen claims about the spec
against these definitions.

Conventions of the embedding:
* A Python instruction string with `\x7bkey\x7d` placeholders is embedded as a
  list of template parts (`TPart.lit` for literal text, `TPart.key` for a
  placeholder), so that the substitution against shared state is explicit.
* The shared execution state is an association list from output keys to text.
* The LLM behind each model call is an uninterpreted deterministic oracle that
  maps the agent name and the fully resolved instruction to a result.
-/

/-- `google.genai.types.HttpRetryOptions`, with the fields the scripts set:
`attempts`, `exp_base`, `initial_delay`, `http_status_codes`. -/
structure HttpRetryOptions where
  attempts : Nat
  exp_base : Nat
  initial_delay : Nat
  http_status_codes : List Nat
deriving DecidableEq, Repr

/-- Outcome of a single attempted model call: either success, or a failure
carrying an HTTP status code. -/
inductive CallOutcome where
  | success : CallOutcome
  | failure : Nat → CallOutcome
deriving DecidableEq, Repr

/-- Modelled from the spec: a failure is retried exactly when its status code is
in the configured set of transient status codes. -/
def isRetryable (cfg : HttpRetryOptions) (code : Nat) : Bool :=
  cfg.http_status_codes.contains code

/-- Modelled from the spec: the delay before retry number `i + 1` follows
exponential backoff, starting at `initial_delay` and multiplying by `exp_base`
after every retry (delay i = initial_delay * exp_base ^ i). -/
def retryDelay (cfg : HttpRetryOptions) (i : Nat) : Nat :=
  cfg.initial_delay * cfg.exp_base ^ i

/-- Modelled from the spec: the bounded retry loop.  `fuel` counts the attempts
still allowed, `made` the attempts already performed; `f n` is the outcome of
attempt number `n` (0-based).  An attempt is followed by another one only when
it failed with a retryable status code and the attempt ceiling has not been
reached; the result is the total number of attempts performed. -/
def retryGo (cfg : HttpRetryOptions) (f : Nat → CallOutcome) : Nat → Nat → Nat
  | 0, made => made
  | fuel + 1, made =>
    match f made with
    | CallOutcome.success => made + 1
    | CallOutcome.failure code =>
      if isRetryable cfg code then retryGo cfg f fuel (made + 1) else made + 1

/-- Modelled from the spec: the total number of attempts a model call performs
under retry configuration `cfg` when attempt `n` has outcome `f n`. -/
def attemptsUsed (cfg : HttpRetryOptions) (f : Nat → CallOutcome) : Nat :=
  retryGo cfg f cfg.attempts 0

/-- One part of an instruction template: literal text or a shared-state
placeholder. -/
inductive TPart where
  | lit : String → TPart
  | key : String → TPart
deriving DecidableEq, Repr

/-- The shared-state keys an instruction template reads. -/
def templateKeys : List TPart → List String
  | [] => []
  | TPart.lit _ :: rest => templateKeys rest
  | TPart.key k :: rest => k :: templateKeys rest

/-- A tool handed to an agent: the built-in search tool, an `AgentTool`
wrapping another agent (by name), or a `FunctionTool` wrapping a named Python
function. -/
inductive Tool where
  | google_search : Tool
  | agent_tool : String → Tool
  | function_tool : String → Tool
deriving DecidableEq, Repr

/-- `google.adk.models.google_llm.Gemini`: a model identifier plus the retry
options bound to it. -/
structure Gemini where
  model : String
  retry_options : HttpRetryOptions
deriving DecidableEq, Repr

/-- `google.adk.agents.Agent`: a unit agent descriptor.  `instruction` is the
template as a list of parts; `output_key` is the optional shared-state slot the
agent writes. -/
structure Agent where
  name : String
  model : Gemini
  instruction : List TPart
  tools : List Tool
  output_key : Option String
deriving DecidableEq, Repr

/-- `google.adk.agents.ParallelAgent` over unit agents, as used in Task2. -/
structure ParallelAgent where
  name : String
  sub_agents : List Agent
deriving DecidableEq, Repr

/-- `google.adk.agents.LoopAgent` over unit agents, as used in Task2. -/
structure LoopAgent where
  name : String
  sub_agents : List Agent
  max_iterations : Nat
deriving DecidableEq, Repr

/-- A direct child of a sequential pipeline: a unit agent, a parallel group, or
a loop.  This covers every composite the scripts construct. -/
inductive SubAgent where
  | unit : Agent → SubAgent
  | par : ParallelAgent → SubAgent
  | loop : LoopAgent → SubAgent
deriving DecidableEq, Repr

/-- `google.adk.agents.SequentialAgent`. -/
structure SequentialAgent where
  name : String
  sub_agents : List SubAgent
deriving DecidableEq, Repr

namespace Task1

/-- `retry_config` from `src/Day1/Task1.py` lines 89-94. -/
def retry_config : HttpRetryOptions :=
  ⟨5, 7, 1, [429, 500, 503, 504]⟩

/-- `root_agent` from `src/Day1/Task1.py` lines 98-107 (`helpful_assistant`,
bound to `gemini-2.5-flash-lite` with `retry_config`). -/
def root_agent : Agent :=
  ⟨"helpful_assistant",
   ⟨"gemini-2.5-flash-lite", retry_config⟩,
   [TPart.lit ("You are a helpful assistant. Use Google Search for current info or if unsure.")],
   [Tool.google_search],
   none⟩

end Task1

namespace Task2

/-- `retry_config` from `src/Day1/Task2.py` lines 64-69. -/
def retry_config : HttpRetryOptions :=
  ⟨5, 7, 1, [429, 500, 503, 504]⟩

/-- `gemini_model` from `src/Day1/Task2.py` lines 72-73: every model it builds
carries the single module-level `retry_config`. -/
def gemini_model (name : String) : Gemini :=
  ⟨name, retry_config⟩

/-- The default model name used by every `gemini_model()` call in Task2. -/
def default_model : String := "gemini-2.5-flash-lite"

/-- `research_agent` from `build_research_summarizer_coordinator`
(`src/Day1/Task2.py` lines 81-90). -/
def research_agent : Agent :=
  ⟨"ResearchAgent",
   gemini_model default_model,
   [TPart.lit ("You are a specialized research agent. Your only job is to use the google_search tool to find 2-3 pieces of relevant information on the given topic and present the findings with citations.")],
   [Tool.google_search],
   some "research_findings"⟩

/-- `summarizer_agent` from `build_research_summarizer_coordinator`
(`src/Day1/Task2.py` lines 92-99). -/
def summarizer_agent : Agent :=
  ⟨"SummarizerAgent",
   gemini_model default_model,
   [TPart.lit ("Read the provided research findings: "),
    TPart.key ("research_findings"),
    TPart.lit ("\nCreate a concise summary as a bulleted list with 3-5 key points.")],
   [],
   some "final_summary"⟩

/-- `root_agent` (the `ResearchCoordinator`) from
`build_research_summarizer_coordinator` (`src/Day1/Task2.py` lines 102-112). -/
def coordinator_root_agent : Agent :=
  ⟨"ResearchCoordinator",
   gemini_model default_model,
   [TPart.lit ("You are a research coordinator. Your goal is to answer the user's query by orchestrating a workflow.\n1. First, call the ResearchAgent tool to find relevant information.\n2. Next, call the SummarizerAgent tool to create a concise summary.\n3. Present the final summary clearly to the user as your response.")],
   [Tool.agent_tool ("ResearchAgent"), Tool.agent_tool ("SummarizerAgent")],
   none⟩

/-- `build_research_summarizer_coordinator` (`src/Day1/Task2.py` lines 80-114)
returns the coordinator root agent. -/
def build_research_summarizer_coordinator : Agent := coordinator_root_agent

/-- `outline_agent` from `build_sequential_blog_pipeline`
(`src/Day1/Task2.py` lines 122-130). -/
def outline_agent : Agent :=
  ⟨"OutlineAgent",
   gemini_model default_model,
   [TPart.lit ("Create a blog outline for the given topic with:\n1. A catchy headline\n2. An introduction hook\n3. 3-5 main sections with 2-3 bullet points for each\n4. A concluding thought")],
   [],
   some "blog_outline"⟩

/-- `writer_agent` from `build_sequential_blog_pipeline`
(`src/Day1/Task2.py` lines 132-139). -/
def writer_agent : Agent :=
  ⟨"WriterAgent",
   gemini_model default_model,
   [TPart.lit ("Following this outline strictly: "),
    TPart.key ("blog_outline"),
    TPart.lit ("\nWrite a brief, 200 to 300-word blog post with an engaging and informative tone.")],
   [],
   some "blog_draft"⟩

/-- `editor_agent` from `build_sequential_blog_pipeline`
(`src/Day1/Task2.py` lines 141-148). -/
def editor_agent : Agent :=
  ⟨"EditorAgent",
   gemini_model default_model,
   [TPart.lit ("Edit this draft: "),
    TPart.key ("blog_draft"),
    TPart.lit ("\nYour task is to polish the text by fixing any grammatical errors, improving the flow and sentence structure, and enhancing overall clarity.")],
   [],
   some "final_blog"⟩

/-- `build_sequential_blog_pipeline` (`src/Day1/Task2.py` lines 121-150):
`SequentialAgent(name="BlogPipeline", sub_agents=[outline, writer, editor])`. -/
def build_sequential_blog_pipeline : SequentialAgent :=
  ⟨"BlogPipeline",
   [SubAgent.unit outline_agent, SubAgent.unit writer_agent, SubAgent.unit editor_agent]⟩

/-- `tech_researcher` from `build_parallel_research_system`
(`src/Day1/Task2.py` lines 158-166). -/
def tech_researcher : Agent :=
  ⟨"TechResearcher",
   gemini_model default_model,
   [TPart.lit ("Research the latest AI/ML trends. Include 3 key developments, the main companies involved, and the potential impact. Keep the report very concise (100 words).")],
   [Tool.google_search],
   some "tech_research"⟩

/-- `health_researcher` from `build_parallel_research_system`
(`src/Day1/Task2.py` lines 168-176). -/
def health_researcher : Agent :=
  ⟨"HealthResearcher",
   gemini_model default_model,
   [TPart.lit ("Research recent medical breakthroughs. Include 3 significant advances, their practical applications, and estimated timelines. Keep the report concise (100 words).")],
   [Tool.google_search],
   some "health_research"⟩

/-- `finance_researcher` from `build_parallel_research_system`
(`src/Day1/Task2.py` lines 178-186). -/
def finance_researcher : Agent :=
  ⟨"FinanceResearcher",
   gemini_model default_model,
   [TPart.lit ("Research current fintech trends. Include 3 key trends, their market implications, and the future outlook. Keep the report concise (100 words).")],
   [Tool.google_search],
   some "finance_research"⟩

/-- `aggregator_agent` from `build_parallel_research_system`
(`src/Day1/Task2.py` lines 188-197). -/
def aggregator_agent : Agent :=
  ⟨"AggregatorAgent",
   gemini_model default_model,
   [TPart.lit ("Combine these three research findings into a single executive summary:\n\n**Technology Trends:**\n"),
    TPart.key ("tech_research"),
    TPart.lit ("\n\n**Health Breakthroughs:**\n"),
    TPart.key ("health_research"),
    TPart.lit ("\n\n**Finance Innovations:**\n"),
    TPart.key ("finance_research"),
    TPart.lit ("\n\nYour summary should highlight common themes, surprising connections, and the most important key takeaways from all three reports. The final summary should be around 200 words.")],
   [],
   some "executive_summary"⟩

/-- `parallel_team` from `build_parallel_research_system`
(`src/Day1/Task2.py` line 199). -/
def parallel_team : ParallelAgent :=
  ⟨"ParallelResearchTeam", [tech_researcher, health_researcher, finance_researcher]⟩

/-- `build_parallel_research_system` (`src/Day1/Task2.py` lines 157-201):
`SequentialAgent(name="ResearchSystem", sub_agents=[parallel_team, aggregator_agent])`. -/
def build_parallel_research_system : SequentialAgent :=
  ⟨"ResearchSystem", [SubAgent.par parallel_team, SubAgent.unit aggregator_agent]⟩

/-- `exit_loop` (`src/Day1/Task2.py` lines 208-210): it takes no arguments and
returns the literal dictionary written in the source. -/
def exit_loop : List (String × String) :=
  [("status", "approved"), ("message", "Story approved. Exiting refinement loop.")]

/-- `initial_writer_agent` from `build_loop_refinement_pipeline`
(`src/Day1/Task2.py` lines 214-222). -/
def initial_writer_agent : Agent :=
  ⟨"InitialWriterAgent",
   gemini_model default_model,
   [TPart.lit ("Based on the user's prompt, write the first draft of a short story (around 100-150 words).\nOutput only the story text, with no introduction or explanation.")],
   [],
   some "current_story"⟩

/-- `critic_agent` from `build_loop_refinement_pipeline`
(`src/Day1/Task2.py` lines 224-234). -/
def critic_agent : Agent :=
  ⟨"CriticAgent",
   gemini_model default_model,
   [TPart.lit ("You are a constructive story critic. Review the story provided below.\nStory: "),
    TPart.key ("current_story"),
    TPart.lit ("\n\nEvaluate the story's plot, characters, and pacing.\n- If the story is well-written and complete, YOU MUST respond with the exact phrase: 'APPROVED'\n- Otherwise, provide 2-3 specific, actionable suggestions for improvement.")],
   [],
   some "critique"⟩

/-- `refiner_agent` from `build_loop_refinement_pipeline`
(`src/Day1/Task2.py` lines 236-248): carries `FunctionTool(exit_loop)` and
writes back to `current_story`, overwriting the story on each refinement. -/
def refiner_agent : Agent :=
  ⟨"RefinerAgent",
   gemini_model default_model,
   [TPart.lit ("You are a story refiner. You have a story draft and critique.\n\nStory Draft: "),
    TPart.key ("current_story"),
    TPart.lit ("\nCritique: "),
    TPart.key ("critique"),
    TPart.lit ("\n\nYour task is to analyze the critique.\n- IF the critique is EXACTLY 'APPROVED', you MUST call the exit_loop function and nothing else.\n- OTHERWISE, rewrite the story draft to fully incorporate the feedback from the critique.")],
   [Tool.function_tool ("exit_loop")],
   some "current_story"⟩

/-- `loop_agent` from `build_loop_refinement_pipeline`
(`src/Day1/Task2.py` line 250), parameterised by `max_iterations`. -/
def loop_agent (max_iterations : Nat) : LoopAgent :=
  ⟨"StoryRefinementLoop", [critic_agent, refiner_agent], max_iterations⟩

/-- `build_loop_refinement_pipeline` (`src/Day1/Task2.py` lines 213-252):
`SequentialAgent(name="StoryPipeline", sub_agents=[initial_writer_agent, loop_agent])`. -/
def build_loop_refinement_pipeline (max_iterations : Nat) : SequentialAgent :=
  ⟨"StoryPipeline",
   [SubAgent.unit initial_writer_agent, SubAgent.loop (loop_agent max_iterations)]⟩

end Task2

/-- The shared execution state: a mapping from output key to the text produced
by the agent that owns that key. -/
def State := List (String × String)

/-- Read a key from the shared state. -/
def lookupKey (st : State) (k : String) : Option String :=
  List.lookup k st

/-- Write a key into the shared state (overwriting any previous binding). -/
def setKey (st : State) (k v : String) : State :=
  (k, v) :: List.filter (fun p => p.1 ≠ k) st

/-- Modelled from the spec: resolve one template part against the shared
state — literal text stays as is, a placeholder is replaced by the text stored
under its key (empty when the key is missing). -/
def resolvePart (st : State) : TPart → String
  | TPart.lit s => s
  | TPart.key k => (lookupKey st k).getD ""

/-- Modelled from the spec: instruction-template substitution — every
placeholder is replaced against the shared state and the parts are
concatenated. -/
def resolveTemplate (st : State) (t : List TPart) : String :=
  String.join (t.map (resolvePart st))

/-- What one model call returns in the operational model: the text response and
whether the agent invoked the designated loop-exit function tool during the
call. -/
structure AgentResult where
  text : String
  called_exit : Bool

/-- The LLM oracle: a deterministic map from the agent name and the fully
resolved instruction to the call's result.  All orchestration theorems are
proved for every oracle, so nothing is assumed about model outputs. -/
def Oracle := String → String → AgentResult

/-- Result of running a (composed) agent: the updated shared state, whether the
loop-exit signal was raised, and the trace of unit-agent invocations performed,
each recorded as (agent name, resolved instruction it received). -/
structure StepResult where
  state : State
  exited : Bool
  trace : List (String × String)

/-- Modelled from the spec: running one unit agent — resolve its instruction
template against the shared state, call the model, and on a normal text
response write it to the agent's output key.  The exit signal is raised only
when the agent both calls the exit function and actually carries the
`exit_loop` `FunctionTool`; an exiting agent calls the tool and nothing else,
so it writes no output. -/
def runUnit (O : Oracle) (a : Agent) (st : State) : StepResult :=
  let instr := resolveTemplate st a.instruction
  let r := O a.name instr
  let ex := a.tools.contains (Tool.function_tool ("exit_loop")) && r.called_exit
  if ex then
    ⟨st, true, [(a.name, instr)]⟩
  else
    ⟨match a.output_key with
      | some k => setKey st k r.text
      | none => st,
     false, [(a.name, instr)]⟩

/-- Modelled from the spec: one pass over a loop body — the unit agents run in
order, threading the state, and the pass stops the instant one of them raises
the exit signal. -/
def runBodyOnce (O : Oracle) : List Agent → State → StepResult
  | [], st => ⟨st, false, []⟩
  | a :: rest, st =>
    let r := runUnit O a st
    if r.exited then r
    else
      let rr := runBodyOnce O rest r.state
      ⟨rr.state, rr.exited, r.trace ++ rr.trace⟩

/-- Result of running a loop: final state, whether the loop ended through the
exit signal (APPROVED) rather than exhaustion, the trace, and the number of
body iterations that were started. -/
structure LoopResult where
  state : State
  approved : Bool
  trace : List (String × String)
  iters : Nat

/-- Modelled from the spec: the bounded loop — run the body at most `fuel`
times, stopping the moment a pass raises the exit signal, without starting any
further iteration. -/
def runLoopAux (O : Oracle) (body : List Agent) : Nat → State → LoopResult
  | 0, st => ⟨st, false, [], 0⟩
  | fuel + 1, st =>
    let r := runBodyOnce O body st
    if r.exited then ⟨r.state, true, r.trace, 1⟩
    else
      let rr := runLoopAux O body fuel r.state
      ⟨rr.state, rr.approved, r.trace ++ rr.trace, rr.iters + 1⟩

/-- Modelled from the spec: running a `LoopAgent` runs its body up to
`max_iterations` times with early exit on the designated tool call. -/
def runLoop (O : Oracle) (l : LoopAgent) (st : State) : LoopResult :=
  runLoopAux O l.sub_agents l.max_iterations st

/-- Modelled from the spec: running a `ParallelAgent` — every member resolves
its instruction against the same incoming state (so no member observes a
sibling's output) and all member outputs are merged into the state. -/
def runParallel (O : Oracle) : List Agent → State → State → StepResult
  | [], _, acc => ⟨acc, false, []⟩
  | a :: rest, st0, acc =>
    let instr := resolveTemplate st0 a.instruction
    let r := O a.name instr
    let acc' := match a.output_key with
      | some k => setKey acc k r.text
      | none => acc
    let rr := runParallel O rest st0 acc'
    ⟨rr.state, rr.exited, (a.name, instr) :: rr.trace⟩

/-- Modelled from the spec: running one child of a sequential pipeline.  A
loop child consumes its own exit signal: both of its terminal states simply
stop the loop, and the sequence continues. -/
def runSub (O : Oracle) (s : SubAgent) (st : State) : StepResult :=
  match s with
  | SubAgent.unit a => runUnit O a st
  | SubAgent.par p => runParallel O p.sub_agents st st
  | SubAgent.loop l =>
    let r := runLoop O l st
    ⟨r.state, false, r.trace⟩

/-- Modelled from the spec: a `SequentialAgent` runs its children one at a
time, in order, threading the shared state forward. -/
def runSeqList (O : Oracle) : List SubAgent → State → StepResult
  | [], st => ⟨st, false, []⟩
  | s :: rest, st =>
    let r := runSub O s st
    let rr := runSeqList O rest r.state
    ⟨rr.state, rr.exited, r.trace ++ rr.trace⟩

/-- Modelled from the spec: run a whole sequential pipeline from a given
initial shared state. -/
def runSequential (O : Oracle) (p : SequentialAgent) (st : State) : StepResult :=
  runSeqList O p.sub_agents st

/-- All output keys configured on the unit agents of a sequential pipeline, in
pipeline order, descending into parallel groups and loop bodies. -/
def subAgentOutputKeys : SubAgent → List String
  | SubAgent.unit a => a.output_key.toList
  | SubAgent.par p => (p.sub_agents.map Agent.output_key).reduceOption
  | SubAgent.loop l => (l.sub_agents.map Agent.output_key).reduceOption

/-- The output keys of every agent in a pipeline, in order. -/
def pipelineOutputKeys (p : SequentialAgent) : List String :=
  (p.sub_agents.map subAgentOutputKeys).flatten

/-- The unit agents of a pipeline, in order. -/
def subAgentUnits : SubAgent → List Agent
  | SubAgent.unit a => [a]
  | SubAgent.par p => p.sub_agents
  | SubAgent.loop l => l.sub_agents

/-- All unit agents of a sequential pipeline, in order. -/
def pipelineAgents (p : SequentialAgent) : List Agent :=
  (p.sub_agents.map subAgentUnits).flatten

/-- The environment a script's API-key configuration step runs in: the Kaggle
secret store may be absent (the `kaggle_secrets` import fails /
`UserSecretsClient` is `None`), the secret lookup may raise, or it may return a
key string. -/
inductive SecretStore where
  | unavailable : SecretStore
  | failing : String → SecretStore
  | available : String → SecretStore
deriving DecidableEq, Repr

/-- What a configuration step did: the value left in the `GOOGLE_API_KEY`
environment variable, the messages printed to the operator, and whether the
step aborted the run (raised past its own handler). -/
structure ConfigOutcome where
  env_key : Option String
  printed : List String
  fatal : Bool
deriving DecidableEq, Repr

/-- `configure_api_key_from_kaggle` (`src/Day1/Task2.py` lines 46-56): when the
secret store is absent it returns silently; when the lookup raises it catches
the exception and prints a note; when a non-empty key comes back it sets the
environment variable and prints a success line.  Every path returns normally,
so `fatal` is `false` on each. -/
def configure_api_key_from_kaggle : SecretStore → ConfigOutcome
  | SecretStore.unavailable => ⟨none, [], false⟩
  | SecretStore.failing e =>
    ⟨none, ["(Kaggle) couldn't read secret: " ++ e], false⟩
  | SecretStore.available key =>
    if key = "" then ⟨none, [], false⟩
    else ⟨some key, ["✅ Loaded GOOGLE_API_KEY from Kaggle secrets."], false⟩

/-- The key setup cell of `src/Day1/Task1.py` (lines 8-15): a `try` block
imports the secret client, reads the secret and sets the environment variable;
the `except` handler prints an authentication-error message and the script
continues.  Every path falls through to the rest of the script, so `fatal` is
`false` on each. -/
def task1_api_key_setup : SecretStore → ConfigOutcome
  | SecretStore.unavailable =>
    ⟨none, ["🔑 Authentication Error: Please add 'GOOGLE_API_KEY' to your Kaggle secrets. Details:"], false⟩
  | SecretStore.failing e =>
    ⟨none, ["🔑 Authentication Error: Please add 'GOOGLE_API_KEY' to your Kaggle secrets. Details: " ++ e], false⟩
  | SecretStore.available key =>
    ⟨some key, ["✅ Gemini API key setup complete."], false⟩

/-- Every agent the two scripts construct, across all pipelines. -/
def repoAgents : List Agent :=
  [Task1.root_agent,
   Task2.research_agent, Task2.summarizer_agent, Task2.coordinator_root_agent,
   Task2.outline_agent, Task2.writer_agent, Task2.editor_agent,
   Task2.tech_researcher, Task2.health_researcher, Task2.finance_researcher,
   Task2.aggregator_agent,
   Task2.initial_writer_agent, Task2.critic_agent, Task2.refiner_agent]

/-- The instruction the Outline agent receives on a blog-pipeline run started
from the empty shared state (its template has no placeholders). -/
def blogOutlineInstr : String :=
  resolveTemplate [] Task2.outline_agent.instruction

/-- The outline text the oracle produces for the blog pipeline. -/
def blogOutlineText (O : Oracle) : String :=
  (O "OutlineAgent" blogOutlineInstr).text

/-- Shared state after the Outline agent has written `blog_outline`. -/
def blogState1 (O : Oracle) : State :=
  setKey [] "blog_outline" (blogOutlineText O)

/-- The resolved instruction the Writer agent receives: its template with the
outline substituted for the `blog_outline` placeholder. -/
def blogWriterInstr (O : Oracle) : String :=
  resolveTemplate (blogState1 O) Task2.writer_agent.instruction

/-- The draft the Writer agent produces. -/
def blogDraft (O : Oracle) : String :=
  (O "WriterAgent" (blogWriterInstr O)).text

/-- Shared state after the Writer agent has written `blog_draft`. -/
def blogState2 (O : Oracle) : State :=
  setKey (blogState1 O) "blog_draft" (blogDraft O)

/-- The resolved instruction the Editor agent receives: its template with the
Writer's draft substituted for the `blog_draft` placeholder. -/
def blogEditorInstr (O : Oracle) : String :=
  resolveTemplate (blogState2 O) Task2.editor_agent.instruction

/-- The final text the Editor agent produces. -/
def blogFinal (O : Oracle) : String :=
  (O "EditorAgent" (blogEditorInstr O)).text

/-- A concrete oracle for the loop scenario: the Critic answers exactly
`APPROVED` and the Refiner calls the exit function. -/
def approvingOracle : Oracle := fun name _ =>
  if name = "CriticAgent" then ⟨"APPROVED", false⟩ else ⟨"", true⟩

/-- C9: the loop-exit tool function `exit_loop` is a constant: embedded from
source it takes no input, and it always returns exactly the mapping with
`status ↦ approved` and `message ↦ Story approved. Exiting refinement loop.`,
those two entries and nothing else. -/
theorem C9_exit_loop_constant :
    Task2.exit_loop =
      [("status", "approved"), ("message", "Story approved. Exiting refinement loop.")] ∧
    List.lookup "status" Task2.exit_loop = some "approved" ∧
    List.lookup "message" Task2.exit_loop =
      some "Story approved. Exiting refinement loop." ∧
    Task2.exit_loop.length = 2 :=
  ⟨rfl, rfl, rfl, rfl⟩

/-- C3 counterexample: the claim that no two agents of the same pipeline share
an output key fails on the story-refinement pipeline, where the
InitialWriterAgent and the RefinerAgent (two distinct agents of the pipeline
built with `max_iterations = 2`) are both configured with output key
`current_story`. -/
theorem C3_counterexample :
    (pipelineAgents (Task2.build_loop_refinement_pipeline 2)).map Agent.name =
      ["InitialWriterAgent", "CriticAgent", "RefinerAgent"] ∧
    Task2.initial_writer_agent.output_key = some "current_story" ∧
    Task2.refiner_agent.output_key = some "current_story" ∧
    pipelineOutputKeys (Task2.build_loop_refinement_pipeline 2) =
      ["current_story", "critique", "current_story"] :=
  ⟨rfl, rfl, rfl, rfl⟩

/-- C3 amended: output keys are pairwise unique in the blog pipeline and in the
parallel research system; in the loop-refinement pipeline the keys are
`current_story`, `critique`, `current_story` for every `max_iterations`:
all distinct except that the RefinerAgent deliberately reuses the
InitialWriterAgent's key `current_story` to overwrite the story each
iteration. -/
theorem C3_output_keys_amended :
    (pipelineOutputKeys Task2.build_sequential_blog_pipeline).Nodup ∧
    (pipelineOutputKeys Task2.build_parallel_research_system).Nodup ∧
    (∀ K, pipelineOutputKeys (Task2.build_loop_refinement_pipeline K) =
      ["current_story", "critique", "current_story"]) ∧
    Task2.refiner_agent.output_key = Task2.initial_writer_agent.output_key :=
  ⟨by decide, by decide, fun _ => rfl, rfl⟩

/-- C8: the retry policy is uniform.  Every agent constructed anywhere in the
two scripts is bound to a `Gemini` model whose retry options equal the single
module-level `retry_config`, and the Task1 and Task2 configurations are the
same (attempts 5, backoff base 7, initial delay 1, retryable codes
429, 500, 503, 504). -/
theorem C8_uniform_retry_config :
    (repoAgents.all (fun a => a.model.retry_options == Task2.retry_config)) = true ∧
    Task1.retry_config = Task2.retry_config ∧
    Task2.retry_config = ⟨5, 7, 1, [429, 500, 503, 504]⟩ :=
  ⟨rfl, rfl, rfl⟩

/-- C5: in the three-member parallel research team the output keys are
pairwise distinct, no member's instruction template references any key at all
(in particular no sibling's output key), and consequently a member's resolved
instruction, the whole group trace and the merged outputs are the same
whatever shared state the group is started from — each member's output is
independent of its siblings' outputs. -/
theorem C5_parallel_member_isolation :
    Task2.parallel_team.sub_agents.map Agent.output_key =
      [some "tech_research", some "health_research", some "finance_research"] ∧
    ((Task2.parallel_team.sub_agents.map Agent.output_key).reduceOption).Nodup ∧
    Task2.parallel_team.sub_agents.map (fun a => templateKeys a.instruction) =
      [[], [], []] ∧
    (∀ (O : Oracle) (st st' acc : State),
      (runParallel O Task2.parallel_team.sub_agents st acc).trace =
        (runParallel O Task2.parallel_team.sub_agents st' acc).trace ∧
      (runParallel O Task2.parallel_team.sub_agents st acc).state =
        (runParallel O Task2.parallel_team.sub_agents st' acc).state) :=
  ⟨rfl, by decide, rfl, fun _ _ _ _ => ⟨rfl, rfl⟩⟩

/-- C7: the research system is a Sequential Composer whose children are the
parallel team and then the aggregator; on every run the aggregator is invoked
after all three members; its instruction template references exactly the three
sibling output keys `tech_research`, `health_research`, `finance_research`;
and it publishes its merged response under its own key `executive_summary`. -/
theorem C7_aggregator_reads_all_sibling_keys :
    Task2.build_parallel_research_system.sub_agents =
      [SubAgent.par Task2.parallel_team, SubAgent.unit Task2.aggregator_agent] ∧
    templateKeys Task2.aggregator_agent.instruction =
      ["tech_research", "health_research", "finance_research"] ∧
    Task2.parallel_team.sub_agents.map Agent.output_key =
      [some "tech_research", some "health_research", some "finance_research"] ∧
    Task2.aggregator_agent.output_key = some "executive_summary" ∧
    (∀ (O : Oracle) (st : State),
      (runSequential O Task2.build_parallel_research_system st).trace.map Prod.fst =
        ["TechResearcher", "HealthResearcher", "FinanceResearcher", "AggregatorAgent"]) ∧
    (∀ O : Oracle,
      (lookupKey (runSequential O Task2.build_parallel_research_system []).state
        "executive_summary").isSome = true) :=
  ⟨rfl, rfl, rfl, rfl, fun _ _ => rfl, fun _ => rfl⟩

/-- C4: the blog pipeline is the Sequential Composer
[Outline, Writer, Editor] in that order; on every run (for every oracle) the
trace is exactly one Outline call, then one Writer call whose instruction
substitutes the Outline's output, then one Editor call; the Editor's resolved
instruction is its literal prefix, the Writer's output verbatim, and its
literal suffix; and the final `final_blog` entry is the Editor's output on
that instruction — so the result is a function solely of the three outputs in
that dependency order. -/
theorem C4_blog_pipeline_dataflow :
    Task2.build_sequential_blog_pipeline.sub_agents =
      [SubAgent.unit Task2.outline_agent, SubAgent.unit Task2.writer_agent,
       SubAgent.unit Task2.editor_agent] ∧
    (∀ O : Oracle,
      (runSequential O Task2.build_sequential_blog_pipeline []).trace =
        [("OutlineAgent", blogOutlineInstr),
         ("WriterAgent", blogWriterInstr O),
         ("EditorAgent", blogEditorInstr O)] ∧
      blogEditorInstr O =
        String.join ["Edit this draft: ", blogDraft O,
          "\nYour task is to polish the text by fixing any grammatical errors, improving the flow and sentence structure, and enhancing overall clarity."] ∧
      lookupKey (runSequential O Task2.build_sequential_blog_pipeline []).state
        "blog_draft" = some (blogDraft O) ∧
      lookupKey (runSequential O Task2.build_sequential_blog_pipeline []).state
        "final_blog" = some (blogFinal O)) :=
  ⟨rfl, fun _ => ⟨rfl, rfl, rfl, rfl⟩⟩

/-- Retry helper: the bounded retry loop performs at most `made + fuel`
attempts. -/
theorem retryGo_le (cfg : HttpRetryOptions) (f : Nat → CallOutcome) :
    ∀ fuel made, retryGo cfg f fuel made ≤ made + fuel := by
  intro fuel
  induction fuel with
  | zero => intro made; simp [retryGo]
  | succ n ih =>
    intro made
    cases h : f made with
    | success =>
      simp only [retryGo, h]
      omega
    | failure code =>
      simp only [retryGo, h]
      split
      · have := ih (made + 1)
        omega
      · omega

/-- Retry helper: a failure with a non-retryable status code is not retried —
the loop stops right after that attempt. -/
theorem retryGo_nonretryable (cfg : HttpRetryOptions) (f : Nat → CallOutcome)
    (fuel made c : Nat) (h0 : f made = CallOutcome.failure c)
    (h : isRetryable cfg c = false) :
    retryGo cfg f (fuel + 1) made = made + 1 := by
  simp [retryGo, h0, h]

/-- C1: the single retry configuration used for every model call has attempt
ceiling 5; its backoff delays start at 1, multiply by 7 at each step and are
strictly increasing; a status code is retryable exactly when it is one of
429, 500, 503, 504; under the bounded retry loop at most 5 attempts happen
(5 are attained when every attempt fails with a retryable code) and a first
failure with any other status code is never retried; and every agent in the
repository carries this configuration. -/
theorem C1_retry_policy :
    Task2.retry_config.attempts = 5 ∧
    retryDelay Task2.retry_config 0 = 1 ∧
    (∀ i, retryDelay Task2.retry_config (i + 1) = 7 * retryDelay Task2.retry_config i) ∧
    (∀ i, retryDelay Task2.retry_config i < retryDelay Task2.retry_config (i + 1)) ∧
    (∀ c, isRetryable Task2.retry_config c = true ↔
      (c = 429 ∨ c = 500 ∨ c = 503 ∨ c = 504)) ∧
    (∀ f, attemptsUsed Task2.retry_config f ≤ 5) ∧
    attemptsUsed Task2.retry_config (fun _ => CallOutcome.failure 429) = 5 ∧
    (∀ c, isRetryable Task2.retry_config c = false →
      ∀ f, f 0 = CallOutcome.failure c → attemptsUsed Task2.retry_config f = 1) ∧
    (repoAgents.all (fun a => a.model.retry_options == Task2.retry_config)) = true := by
  refine ⟨rfl, rfl, ?_, ?_, ?_, ?_, rfl, ?_, rfl⟩
  · intro i
    simp only [retryDelay, Task2.retry_config, one_mul, pow_succ]
    ring
  · intro i
    simp only [retryDelay, Task2.retry_config, one_mul]
    exact Nat.pow_lt_pow_right (by norm_num) (Nat.lt_succ_self i)
  · intro c
    simp [isRetryable, Task2.retry_config]
  · intro f
    have h := retryGo_le Task2.retry_config f 5 0
    simpa [attemptsUsed] using h
  · intro c h f h0
    show retryGo Task2.retry_config f 5 0 = 1
    exact retryGo_nonretryable _ _ 4 0 c h0 h

/-- C1 witness: the non-retryable branch at the concrete status code 404. -/
theorem C1_retry_policy_witness :
    isRetryable Task2.retry_config 404 = false ∧
    ((fun _ => CallOutcome.failure 404) : Nat → CallOutcome) 0 = CallOutcome.failure 404 ∧
    attemptsUsed Task2.retry_config (fun _ => CallOutcome.failure 404) = 1 :=
  ⟨rfl, rfl,
    C1_retry_policy.2.2.2.2.2.2.2.1 404 rfl (fun _ => CallOutcome.failure 404) rfl⟩

/-- Unit helper: whether or not the agent raises the exit signal, its trace is
the single call it made, with the instruction resolved against the incoming
state. -/
theorem runUnit_trace (O : Oracle) (a : Agent) (st : State) :
    (runUnit O a st).trace = [(a.name, resolveTemplate st a.instruction)] := by
  simp only [runUnit]
  split <;> rfl

/-- Loop helper: the loop starts at most `fuel` body iterations. -/
theorem runLoopAux_iters_le (O : Oracle) (body : List Agent) :
    ∀ (fuel : Nat) (st : State), (runLoopAux O body fuel st).iters ≤ fuel := by
  intro fuel
  induction fuel with
  | zero => intro st; simp [runLoopAux]
  | succ n ih =>
    intro st
    simp only [runLoopAux]
    split
    · simp
    · simpa using Nat.succ_le_succ (ih _)

/-- Loop helper: when already the first pass over the body raises the exit
signal, the loop stops after that single iteration, whatever iteration budget
remains. -/
theorem runLoopAux_exit_first (O : Oracle) (body : List Agent) (fuel : Nat)
    (st : State) (h : (runBodyOnce O body st).exited = true) :
    runLoopAux O body (fuel + 1) st =
      ⟨(runBodyOnce O body st).state, true, (runBodyOnce O body st).trace, 1⟩ := by
  simp only [runLoopAux, h]
  simp

/-- Body helper: every trace entry of a body pass names an agent of the body. -/
theorem runBodyOnce_trace_sub (O : Oracle) :
    ∀ (body : List Agent) (st : State) (p : String × String),
      p ∈ (runBodyOnce O body st).trace → p.1 ∈ body.map Agent.name := by
  intro body
  induction body with
  | nil => intro st p hp; simp [runBodyOnce] at hp
  | cons a rest ih =>
    intro st p hp
    simp only [runBodyOnce] at hp
    by_cases h : (runUnit O a st).exited = true
    · rw [if_pos h] at hp
      rw [runUnit_trace] at hp
      simp at hp
      simp [hp]
    · rw [if_neg h] at hp
      simp only [runUnit_trace] at hp
      rcases List.mem_append.mp hp with h1 | h2
      · simp at h1
        simp [h1]
      · simp only [List.map_cons]
        exact List.mem_cons_of_mem _ (ih _ p h2)

/-- Loop helper: every trace entry of a loop run names an agent of the loop
body. -/
theorem runLoopAux_trace_sub (O : Oracle) (body : List Agent) :
    ∀ (fuel : Nat) (st : State) (p : String × String),
      p ∈ (runLoopAux O body fuel st).trace → p.1 ∈ body.map Agent.name := by
  intro fuel
  induction fuel with
  | zero => intro st p hp; simp [runLoopAux] at hp
  | succ n ih =>
    intro st p hp
    simp only [runLoopAux] at hp
    by_cases h : (runBodyOnce O body st).exited = true
    · rw [if_pos h] at hp
      exact runBodyOnce_trace_sub O body st p hp
    · rw [if_neg h] at hp
      simp only at hp
      rcases List.mem_append.mp hp with h1 | h2
      · exact runBodyOnce_trace_sub O body st p h1
      · exact ih _ p h2

/-- C2: every Loop Composer with `max_iterations = K` starts at most `K` body
iterations; and in the story-refinement loop with body [Critic, Refiner] and
`max_iterations = 2`, whenever the Critic answers exactly `APPROVED` in the
first iteration (and the Refiner, as instructed, then invokes the exit tool),
the loop ends approved after iteration 1 — each body agent ran exactly once
and no second iteration was started. -/
theorem C2_loop_termination :
    (∀ (O : Oracle) (l : LoopAgent) (st : State),
      (runLoop O l st).iters ≤ l.max_iterations) ∧
    (∀ (O : Oracle) (st : State),
      (O "CriticAgent" (resolveTemplate st Task2.critic_agent.instruction)).text =
        "APPROVED" →
      (O "RefinerAgent" (resolveTemplate (setKey st "critique" "APPROVED")
        Task2.refiner_agent.instruction)).called_exit = true →
      (runLoop O (Task2.loop_agent 2) st).iters = 1 ∧
      (runLoop O (Task2.loop_agent 2) st).approved = true ∧
      (runLoop O (Task2.loop_agent 2) st).trace.map Prod.fst =
        ["CriticAgent", "RefinerAgent"]) := by
  constructor
  · intro O l st
    exact runLoopAux_iters_le O l.sub_agents l.max_iterations st
  · intro O st h1 h2
    have hu1 : runUnit O Task2.critic_agent st =
        ⟨setKey st "critique"
          (O "CriticAgent" (resolveTemplate st Task2.critic_agent.instruction)).text,
         false, [("CriticAgent", resolveTemplate st Task2.critic_agent.instruction)]⟩ := rfl
    rw [h1] at hu1
    have hu2 : runUnit O Task2.refiner_agent (setKey st "critique" "APPROVED") =
        ⟨setKey st "critique" "APPROVED", true,
         [("RefinerAgent", resolveTemplate (setKey st "critique" "APPROVED")
            Task2.refiner_agent.instruction)]⟩ := by
      have h2' : (O Task2.refiner_agent.name
          (resolveTemplate (setKey st "critique" "APPROVED")
            Task2.refiner_agent.instruction)).called_exit = true := h2
      simp only [runUnit]
      rw [h2']
      simp
      rw [if_pos (show Tool.function_tool "exit_loop" ∈ Task2.refiner_agent.tools by decide)]
      rfl
    have hb : runBodyOnce O [Task2.critic_agent, Task2.refiner_agent] st =
        ⟨setKey st "critique" "APPROVED", true,
         [("CriticAgent", resolveTemplate st Task2.critic_agent.instruction),
          ("RefinerAgent", resolveTemplate (setKey st "critique" "APPROVED")
            Task2.refiner_agent.instruction)]⟩ := by
      simp only [runBodyOnce, hu1, hu2]
      simp
    have hfin : runLoop O (Task2.loop_agent 2) st =
        ⟨setKey st "critique" "APPROVED", true,
         [("CriticAgent", resolveTemplate st Task2.critic_agent.instruction),
          ("RefinerAgent", resolveTemplate (setKey st "critique" "APPROVED")
            Task2.refiner_agent.instruction)], 1⟩ := by
      show runLoopAux O [Task2.critic_agent, Task2.refiner_agent] (1 + 1) st = _
      rw [runLoopAux_exit_first O _ 1 st (by rw [hb])]
      rw [hb]
    rw [hfin]
    exact ⟨rfl, rfl, rfl⟩

/-- C2 witness: the scenario instantiated with the concrete approving oracle
and the empty initial state. -/
theorem C2_loop_termination_witness :
    (approvingOracle "CriticAgent"
      (resolveTemplate [] Task2.critic_agent.instruction)).text = "APPROVED" ∧
    (approvingOracle "RefinerAgent" (resolveTemplate (setKey [] "critique" "APPROVED")
      Task2.refiner_agent.instruction)).called_exit = true ∧
    (runLoop approvingOracle (Task2.loop_agent 2) []).iters = 1 ∧
    (runLoop approvingOracle (Task2.loop_agent 2) []).approved = true :=
  ⟨rfl, rfl,
   (C2_loop_termination.2 approvingOracle [] rfl rfl).1,
   (C2_loop_termination.2 approvingOracle [] rfl rfl).2.1⟩

/-- C10: for every `max_iterations` value `K`, the story pipeline is the
Sequential Composer [InitialWriter, StoryRefinementLoop(K)] — the initial
writer stands outside the loop, the loop body is exactly [Critic, Refiner] —
the Refiner writes to the very key `current_story` the InitialWriter wrote,
and on every run (any oracle, any state) the InitialWriterAgent appears
exactly once in the invocation trace. -/
theorem C10_story_pipeline_structure :
    (∀ K, (Task2.build_loop_refinement_pipeline K).sub_agents =
      [SubAgent.unit Task2.initial_writer_agent, SubAgent.loop (Task2.loop_agent K)]) ∧
    (∀ K, (Task2.loop_agent K).sub_agents = [Task2.critic_agent, Task2.refiner_agent]) ∧
    Task2.initial_writer_agent.output_key = some "current_story" ∧
    Task2.refiner_agent.output_key = some "current_story" ∧
    (∀ (O : Oracle) (K : Nat) (st : State),
      ((runSequential O (Task2.build_loop_refinement_pipeline K) st).trace.map
        Prod.fst).count "InitialWriterAgent" = 1) := by
  refine ⟨fun _ => rfl, fun _ => rfl, rfl, rfl, ?_⟩
  intro O K st
  have hseq : (runSequential O (Task2.build_loop_refinement_pipeline K) st).trace =
      (runUnit O Task2.initial_writer_agent st).trace ++
      ((runLoopAux O [Task2.critic_agent, Task2.refiner_agent] K
        (runUnit O Task2.initial_writer_agent st).state).trace ++ []) := rfl
  rw [hseq, runUnit_trace]
  simp only [List.append_nil, List.map_append, List.count_append]
  have hz : ((runLoopAux O [Task2.critic_agent, Task2.refiner_agent] K
      (runUnit O Task2.initial_writer_agent st).state).trace.map Prod.fst).count
      "InitialWriterAgent" = 0 := by
    refine List.count_eq_zero.mpr ?_
    intro hmem
    rcases List.mem_map.mp hmem with ⟨p, hp, hname⟩
    have := runLoopAux_trace_sub O [Task2.critic_agent, Task2.refiner_agent] K _ p hp
    rw [hname] at this
    simp [Task2.critic_agent, Task2.refiner_agent] at this
  rw [hz]
  rfl

/-- C6 counterexample: when the secret lookup fails, Task2's configuration
step returns normally with no key set (`fatal = false`), and the same holds
for Task1's setup cell when the secret store is absent — the missing key is
not fatal to the run, contradicting the claim. -/
theorem C6_counterexample :
    (configure_api_key_from_kaggle (SecretStore.failing "no secret")).fatal = false ∧
    (configure_api_key_from_kaggle (SecretStore.failing "no secret")).env_key = none ∧
    (configure_api_key_from_kaggle SecretStore.unavailable).fatal = false ∧
    (task1_api_key_setup SecretStore.unavailable).fatal = false ∧
    (task1_api_key_setup SecretStore.unavailable).env_key = none :=
  ⟨rfl, rfl, rfl, rfl, rfl⟩

/-- C6 amended: when the GOOGLE_API_KEY secret cannot be obtained, the
configuration step surfaces the failed lookup to the operator by printing an
error message (Task2 returns silently when the secret-store module itself is
absent), but the error is handled internally: every path of both scripts'
configuration steps returns normally with `fatal = false`, so execution
continues without the key. -/
theorem C6_config_error_amended :
    (∀ s, (configure_api_key_from_kaggle s).fatal = false) ∧
    (∀ s, (task1_api_key_setup s).fatal = false) ∧
    (∀ e, (configure_api_key_from_kaggle (SecretStore.failing e)).printed =
      ["(Kaggle) couldn't read secret: " ++ e] ∧
      (configure_api_key_from_kaggle (SecretStore.failing e)).env_key = none) ∧
    (∀ e, (task1_api_key_setup (SecretStore.failing e)).printed =
      ["🔑 Authentication Error: Please add 'GOOGLE_API_KEY' to your Kaggle secrets. Details: " ++ e] ∧
      (task1_api_key_setup (SecretStore.failing e)).env_key = none) ∧
    (configure_api_key_from_kaggle SecretStore.unavailable).printed = [] := by
  refine ⟨?_, ?_, fun _ => ⟨rfl, rfl⟩, fun _ => ⟨rfl, rfl⟩, rfl⟩
  · intro s
    cases s with
    | unavailable => rfl
    | failing e => rfl
    | available k =>
      simp only [configure_api_key_from_kaggle]
      split <;> rfl
  · intro s
    cases s <;> rfl
